import Mathlib

/-
Verification of the Lumina-Next-SFT diffusers wrapper node
(lumina_diffusers_node.py) against its design specification.

The file shallowly embeds the parts of the source that the verified
properties are about: the time-aware scaling glue inside model_fn
(lines 120-139), the resolution-scale and default-image-size formulas
(lines 82 and 122), the seed handling (lines 77-79), the schedule-shift
configuration (lines 90-92), the pipeline call-method swapping
(lines 115-149), the exception fallback (lines 156-160) and the output
latent packaging (lines 151-152, 188-198).  Python floats are modelled
as rationals (for the branch comparisons, which are exact) and as reals
(for the square-root formula); tensors are modelled by their shape
together with a symbolic value recording how they were produced.  The
ODE integrator and the rotary-embedding generator live in the
repository module utils, which is not among the staged source files;
the definitions that stand for them are marked as modelled from the
spec in their doc comments.

A point of Python semantics the embedding must reflect: line 143
assigns custom_call to the instance attribute of the pipeline object,
but the invocation self.pipe(**pipe_args) at line 146 resolves the call
through implicit special-method lookup on the type, which bypasses the
instance dictionary.  The assignment is therefore ineffective for the
invocation: custom_call, and with it ode.sample and model_fn, never
execute, and the stock diffusers pipeline runs instead.  The generate
embedding below models the dispatch accordingly; explicit attribute
reads and writes (lines 116, 143, 149) do see the instance attribute
and are modelled on the pipeline state.
-/

namespace Lumina

/-- Solver choice, from the INPUT_TYPES declaration (line 30) of the node:
one of euler, midpoint, rk4. -/
inductive Solver
  | euler
  | midpoint
  | rk4
deriving DecidableEq

/-- Embeds line 82: default_image_size is the transformer sample_size
multiplied by the VAE scale factor of the pipeline. -/
def default_image_size (sample_size vae_scale_factor : ℕ) : ℕ :=
  sample_size * vae_scale_factor

/-- Embeds line 122: the resolution-scale factor computed inside model_fn,
the square root of width times height over the square of the default image
size. -/
noncomputable def scale_factor (width height dis : ℝ) : ℝ :=
  Real.sqrt (width * height / dis ^ 2)

/-- Follows the words of the spec (section 4.3): sqrt of
(width times height) over default_resolution squared, where
default_resolution is the trained sample size times the VAE scale
factor.  Stated separately from `scale_factor` so the code formula can
be compared against the spec formula. -/
noncomputable def scale_factor_from_spec (width height : ℝ)
    (sample_size vae_scale_factor : ℕ) : ℝ :=
  Real.sqrt ((width * height) / ((sample_size * vae_scale_factor : ℕ) : ℝ) ^ 2)

/-- Embeds line 124: linear_factor is the resolution-scale factor when the
current time is strictly below the watershed, and 1.0 otherwise.  The
resolution-scale factor is passed in as the rational parameter s. -/
def linear_factor (current_t scaling_watershed s : ℚ) : ℚ :=
  if current_t < scaling_watershed then s else 1

/-- Embeds line 125: ntk_factor is 1.0 when the current time is strictly
below the watershed, and the resolution-scale factor otherwise. -/
def ntk_factor (current_t scaling_watershed s : ℚ) : ℚ :=
  if current_t < scaling_watershed then 1 else s

/-- Observable events of one model_fn evaluation: a call to the rotary
embedding generator (with the head dimension, the token-grid sizes and
the two scale factors it received) and the call to the underlying
transformer model. -/
inductive ModelFnEvent
  | genRotaryEmb (dim hTok wTok : ℕ) (linear ntk : ℚ)
  | callTransformer
deriving DecidableEq

/-- Embeds lines 120-139: one evaluation of model_fn at time t first calls
get_2d_rotary_pos_embed_lumina with head dimension
hidden_size / num_attention_heads, token grid height / 8 by width / 8 and
the two factors chosen from t, and then invokes the transformer. -/
def model_fn_trace (hidden_size num_attention_heads height width : ℕ)
    (scaling_watershed s t : ℚ) : List ModelFnEvent :=
  [ModelFnEvent.genRotaryEmb (hidden_size / num_attention_heads)
      (height / 8) (width / 8)
      (linear_factor t scaling_watershed s) (ntk_factor t scaling_watershed s),
   ModelFnEvent.callTransformer]

/-- Recognizes an embedding-generator call among model_fn events. -/
def isGenRotaryEmb : ModelFnEvent → Bool
  | ModelFnEvent.genRotaryEmb _ _ _ _ _ => true
  | ModelFnEvent.callTransformer => false

/-- The events of a whole sampling run: the concatenation of the model_fn
traces of the successive evaluation times the integrator visits. -/
def sampling_trace (hidden_size num_attention_heads height width : ℕ)
    (scaling_watershed s : ℚ) : List ℚ → List ModelFnEvent
  | [] => []
  | t :: ts =>
      model_fn_trace hidden_size num_attention_heads height width
        scaling_watershed s t ++
      sampling_trace hidden_size num_attention_heads height width
        scaling_watershed s ts

/-- Embeds line 91: time_shift_factor is one plus t_shift. -/
def time_shift_factor (t_shift : ℕ) : ℕ := 1 + t_shift

/-- Modelled from the spec: the schedule warp applied by the flow-matching
scheduler configured at line 92 lives outside the staged source files.
Per the spec (sections 4.2 and 8), the shift transform warps a schedule
value t by the configured factor and is the identity (the unwarped
baseline) at factor 1. -/
def time_shift_warp (factor t : ℚ) : ℚ :=
  factor * t / (1 + (factor - 1) * t)

/-- Which function the pipeline call attribute holds: the original bound
method of the pipeline, or the custom_call closure of lines 118-141. -/
inductive CallMethod
  | original
  | custom
deriving DecidableEq

/-- The mutable state of the shared pipeline object that generate touches:
its call attribute (lines 116, 143, 149) and the scheduler shift
configuration (line 92). -/
structure PipeState where
  call_attr : CallMethod
  scheduler_shift : ℕ
deriving DecidableEq

/-- Symbolic tensor contents: all zeros (the placeholder of lines 159-160),
the deterministic result of an ODE sampling run, or the deterministic
pixel-space output of the stock diffusers pipeline, each recorded with
the data it is a function of. -/
inductive TensorVal
  | zeros
  | sampled (seed : Int) (steps : ℕ) (solver : Solver) (t_shift : ℕ)
  | pixelImages (seed : Int) (steps : ℕ) (shift : ℕ)
deriving DecidableEq

/-- A tensor, modelled by its shape and a symbolic value. -/
structure Tensor where
  shape : List ℕ
  val : TensorVal
deriving DecidableEq

/-- Embeds torch.zeros at the given shape. -/
def torch_zeros (shape : List ℕ) : Tensor :=
  ⟨shape, TensorVal.zeros⟩

/-- The latent dictionary returned to the caller: a record with the single
key samples (lines 160 and 198). -/
structure LatentDict where
  samples : Tensor
deriving DecidableEq

/-- An exception raised while the pipeline invocation runs the denoising
model (an evaluation error in the error taxonomy of the spec), tagged
with the step at which it arose. -/
inductive EvalError
  | vfRaised (step : ℕ)
deriving DecidableEq

/-- The inputs of generate that the verified properties depend on
(lines 64-65), together with the pipeline configuration values generate
reads (transformer sample_size, VAE scale factor, latent channel count). -/
structure GenInputs where
  num_inference_steps : ℕ
  width : ℕ
  height : ℕ
  seed : Int
  batch_size : ℕ
  scaling_watershed : ℚ
  t_shift : ℕ
  solver : Solver
  sample_size : ℕ
  vae_scale_factor : ℕ
  latent_channels : ℕ
deriving DecidableEq

/-- The vector-field callback passed to the integrator: line 141 passes
the local function model_fn. -/
inductive VFCallback
  | model_fn
deriving DecidableEq

/-- Observable events of one run of generate, in program order: saving the
original call attribute (line 116), assigning custom_call to it
(line 143), the integrator call ode.sample with the injected callback
(line 141, an event that would arise only if custom_call ever ran), the
dispatch of the invocation at line 146 to the class-level call method
of the pipeline, restoring the saved attribute (line 149), and
returning the placeholder from the except branch (lines 159-160). -/
inductive GenEvent
  | saveOriginalCall (saved : CallMethod)
  | assignCustomCall
  | odeSampleCall (callback : VFCallback)
  | classPipelineCall
  | restoreCall (restored : CallMethod)
  | returnPlaceholder
deriving DecidableEq

/-- The outcome of one run of generate: the pipeline state it leaves
behind, the events it performed, and the returned pair of image tensor
and latent dictionary. -/
structure GenResult where
  pipe : PipeState
  events : List GenEvent
  images : Tensor
  latents : LatentDict
deriving DecidableEq

/-- Embeds lines 77-78: a seed of -1 is replaced by four bytes of OS
entropy read as a big-endian integer (a value below 2 ^ 32); any other
seed is used as given.  The entropy drawn is an explicit parameter. -/
def resolve_seed (seed : Int) (entropy : ℕ) : Int :=
  if seed = -1 then ((entropy % 2 ^ 32 : ℕ) : Int) else seed

/-- Modelled from the spec: ODE.sample lives in the repository module
utils, which is not among the staged source files.  Per the spec
(sections 4.2 and 6), sampling is a deterministic function of the
initial state derived from the seeded generator, the schedule, the
solver and the vector field; it returns the final latent tensor of
shape (batch, channels, height/8, width/8); and when the vector-field
callback fails it aborts and surfaces the error with no silent
recovery.  Whether the callback fails during the run is abstracted by
the vf_fail parameter. -/
def ode_sample (steps : ℕ) (solver : Solver) (t_shift : ℕ) (eff_seed : Int)
    (batch channels height width : ℕ) (vf_fail : Option EvalError) :
    Except EvalError Tensor :=
  match vf_fail with
  | some e => Except.error e
  | none =>
      Except.ok ⟨[batch, channels, height / 8, width / 8],
        TensorVal.sampled eff_seed steps solver t_shift⟩

/-- Models the class-level call method of the stock diffusers
LuminaText2ImgPipeline, the external collaborator of section 1 of the
spec, which is what the invocation at line 146 actually dispatches to.
It consumes the seeded generator and the pipe_args of lines 97-110
(among them output_type pt, line 106): it is deterministic given the
seed, it returns an output object whose images field is a pixel-space
tensor of shape (batch, 3, height, width), and any exception raised
while it runs the denoising model propagates to the caller.  Whether
such an exception arises is abstracted by the pipe_fail parameter. -/
def class_pipeline_call (steps shift : ℕ) (eff_seed : Int)
    (batch height width : ℕ) (pipe_fail : Option EvalError) :
    Except EvalError Tensor :=
  match pipe_fail with
  | some e => Except.error e
  | none =>
      Except.ok ⟨[batch, 3, height, width],
        TensorVal.pixelImages eff_seed steps shift⟩

/-- Embeds lines 162-186: process_output converts the images to float32,
rescales and clamps them, and permutes the axes from
(batch, channel, height, width) to (batch, height, width, channel). -/
def process_output (images : Tensor) : Tensor :=
  match images.shape with
  | [b, c, h, w] => ⟨[b, h, w, c], images.val⟩
  | s => ⟨s, images.val⟩

/-- Embeds lines 188-198: process_latents clones the tensor, converts it
to float32 and wraps it unchanged in a dictionary under the key
samples. -/
def process_latents (images : Tensor) : LatentDict :=
  ⟨images⟩

/-- Embeds lines 64-160, the generate method.  The entropy parameter
abstracts the OS randomness read at line 78; pipe_fail abstracts
whether the pipeline call raises; st is the pipeline state on entry.
The run resolves the seed, sets the scheduler shift to
time_shift_factor (lines 91-92), saves the call attribute (line 116),
overwrites it with custom_call (line 143) and invokes the pipeline at
line 146.  That invocation dispatches, by implicit special-method
lookup on the type, to the class-level call method, not to the
instance attribute just assigned: custom_call never runs, so no
odeSampleCall event occurs, and the stock pipeline produces the
output.  On success the call attribute is restored (line 149) and the
processed images and the latent dictionary built from output.images
are returned (lines 151-154); on an exception the except branch
(lines 156-160) returns the zero-filled placeholder pair without
restoring the call attribute. -/
def generate (inp : GenInputs) (entropy : ℕ) (pipe_fail : Option EvalError)
    (st : PipeState) : GenResult :=
  let eff_seed := resolve_seed inp.seed entropy
  let st1 : PipeState := { st with scheduler_shift := time_shift_factor inp.t_shift }
  let original_call := st1.call_attr
  let st2 : PipeState := { st1 with call_attr := CallMethod.custom }
  match class_pipeline_call inp.num_inference_steps (time_shift_factor inp.t_shift)
      eff_seed inp.batch_size inp.height inp.width pipe_fail with
  | Except.error _ =>
      { pipe := st2,
        events := [GenEvent.saveOriginalCall original_call,
          GenEvent.assignCustomCall,
          GenEvent.classPipelineCall,
          GenEvent.returnPlaceholder],
        images := torch_zeros [inp.batch_size, inp.height, inp.width, 3],
        latents := ⟨torch_zeros [inp.batch_size, 4, inp.height / 8, inp.width / 8]⟩ }
  | Except.ok out =>
      { pipe := { st2 with call_attr := original_call },
        events := [GenEvent.saveOriginalCall original_call,
          GenEvent.assignCustomCall,
          GenEvent.classPipelineCall,
          GenEvent.restoreCall original_call],
        images := process_output out,
        latents := process_latents out }

/-- A concrete set of generate inputs with an explicit seed, used to
evaluate the theorems at a point. -/
def sample_inputs : GenInputs where
  num_inference_steps := 30
  width := 1024
  height := 1024
  seed := 5
  batch_size := 1
  scaling_watershed := 1
  t_shift := 4
  solver := Solver.midpoint
  sample_size := 128
  vae_scale_factor := 8
  latent_channels := 4

/-- The same inputs with the randomize sentinel seed -1. -/
def sentinel_inputs : GenInputs :=
  { sample_inputs with seed := -1 }

/-- A pipeline state holding the original call method and an unset
scheduler shift. -/
def pipe0 : PipeState :=
  ⟨CallMethod.original, 0⟩

end Lumina

namespace Lumina

/-- Helper for C6: the shift warp moves the midpoint of the schedule
whenever the factor is at least 2. -/
theorem time_shift_warp_moves_midpoint (f : ℚ) (hf : 2 ≤ f) :
    time_shift_warp f (1 / 2) ≠ 1 / 2 := by
  intro heq
  have hd : 1 + (f - 1) * (1 / 2) ≠ 0 := by
    intro h0
    nlinarith
  rw [time_shift_warp, div_eq_iff hd] at heq
  nlinarith

/-- C1: the watershed branch selection is sharp and uses strict
less-than.  For current time t strictly below scaling_watershed,
linear_factor is the resolution-scale factor and ntk_factor is 1;
otherwise, including t exactly at the watershed, linear_factor is 1 and
ntk_factor is the resolution-scale factor. -/
theorem c1_watershed_sharp (t w s : ℚ) :
    (t < w → linear_factor t w s = s ∧ ntk_factor t w s = 1) ∧
    (w ≤ t → linear_factor t w s = 1 ∧ ntk_factor t w s = s) := by
  refine ⟨fun h => ?_, fun h => ?_⟩
  · simp [linear_factor, ntk_factor, h]
  · simp [linear_factor, ntk_factor, not_lt.mpr h]

/-- C2: at every step the pair (linear_factor, ntk_factor) is either
(scale, 1) or (1, scale), and the assignment swaps when the current
time crosses the watershed: any time below the watershed gives
(scale, 1) while any time at or above it gives (1, scale). -/
theorem c2_factor_invariant (t w s : ℚ) :
    ((linear_factor t w s = s ∧ ntk_factor t w s = 1) ∨
      (linear_factor t w s = 1 ∧ ntk_factor t w s = s)) ∧
    (∀ t1 t2 : ℚ, t1 < w → w ≤ t2 →
      (linear_factor t1 w s = s ∧ ntk_factor t1 w s = 1) ∧
      (linear_factor t2 w s = 1 ∧ ntk_factor t2 w s = s)) := by
  constructor
  · by_cases h : t < w
    · exact Or.inl (by simp [linear_factor, ntk_factor, h])
    · exact Or.inr (by simp [linear_factor, ntk_factor, h])
  · intro t1 t2 h1 h2
    constructor
    · simp [linear_factor, ntk_factor, h1]
    · simp [linear_factor, ntk_factor, not_lt.mpr h2]

/-- C2 evaluated: at watershed 1 with scale 2, time 0 gives the pair
(2, 1) and the boundary time 1 gives the pair (1, 2). -/
theorem c2_factor_invariant_witness :
    ((0 : ℚ) < 1 ∧ (1 : ℚ) ≤ 1) ∧
    (linear_factor 0 1 2 = 2 ∧ ntk_factor 0 1 2 = 1) ∧
    (linear_factor 1 1 2 = 1 ∧ ntk_factor 1 1 2 = 2) := by
  refine ⟨⟨by norm_num, le_refl 1⟩, ?_⟩
  exact (c2_factor_invariant 0 1 2).2 0 1 (by norm_num) (le_refl 1)

/-- C3: the resolution-scale factor of the code (line 122, with the
default image size of line 82) equals the spec formula
sqrt((width * height) / default_resolution ^ 2) with default_resolution
the trained sample size times the VAE scale factor. -/
theorem c3_scale_factor_formula (width height : ℝ) (s v : ℕ) :
    scale_factor width height ((default_image_size s v : ℕ) : ℝ) =
      scale_factor_from_spec width height s v := rfl

/-- C4: every model_fn evaluation at time t first calls the rotary
embedding generator with the factors computed from t and only then
invokes the transformer, and a run over any list of evaluation times
performs exactly one generator call per evaluation: embeddings are
recomputed each step, never cached or reused. -/
theorem c4_rotary_recompute (hs nh h w : ℕ) (ws s : ℚ) (ts : List ℚ) :
    (∀ t : ℚ, model_fn_trace hs nh h w ws s t =
      [ModelFnEvent.genRotaryEmb (hs / nh) (h / 8) (w / 8)
          (linear_factor t ws s) (ntk_factor t ws s),
        ModelFnEvent.callTransformer]) ∧
    (sampling_trace hs nh h w ws s ts).countP isGenRotaryEmb = ts.length := by
  refine ⟨fun t => rfl, ?_⟩
  induction ts with
  | nil => rfl
  | cons t ts ih =>
      simp [sampling_trace, model_fn_trace, List.countP_append,
        List.countP_cons, isGenRotaryEmb, ih]

/-- C5 fails as stated: on concrete inputs, generate does swap the call
method of the shared pipeline object, assigning custom_call to it
(line 143 of the source). -/
theorem c5_no_monkey_patch_counterexample :
    GenEvent.assignCustomCall ∈ (generate sample_inputs 0 none pipe0).events := by
  decide

/-- C5 amended: generate is not wired by explicit composition.  It swaps
the call attribute of the shared pipeline object to custom_call, and
the swap is moreover ineffective: the invocation at line 146 dispatches
through implicit special-method lookup to the class-level call method,
so on no run does custom_call execute and on no run does ode.sample
receive the model_fn callback; the stock pipeline runs instead, and the
saved attribute is restored on the success path. -/
theorem c5_patch_ineffective_amended (inp : GenInputs) (e : ℕ)
    (pf : Option EvalError) (st : PipeState) :
    GenEvent.assignCustomCall ∈ (generate inp e pf st).events ∧
    GenEvent.classPipelineCall ∈ (generate inp e pf st).events ∧
    (∀ cb : VFCallback, GenEvent.odeSampleCall cb ∉ (generate inp e pf st).events) ∧
    (generate inp e none st).events =
      [GenEvent.saveOriginalCall st.call_attr,
       GenEvent.assignCustomCall,
       GenEvent.classPipelineCall,
       GenEvent.restoreCall st.call_attr] := by
  refine ⟨?_, ?_, fun cb => ?_, rfl⟩ <;>
    cases pf <;> simp [generate, class_pipeline_call]

/-- C6: time_shift_factor is one plus t_shift (line 91); generate writes
this factor into the scheduler shift configuration (line 92); the
schedule warp is the identity baseline at factor 1; and for every
positive t_shift the factor warps the schedule away from uniform
spacing (the midpoint moves). -/
theorem c6_time_shift_factor (ts : ℕ) (inp : GenInputs) (e : ℕ)
    (vf : Option EvalError) (st : PipeState) :
    time_shift_factor ts = 1 + ts ∧
    (generate inp e vf st).pipe.scheduler_shift = time_shift_factor inp.t_shift ∧
    (∀ t : ℚ, time_shift_warp 1 t = t) ∧
    (1 ≤ ts → time_shift_warp ((time_shift_factor ts : ℕ) : ℚ) (1 / 2) ≠ 1 / 2) := by
  refine ⟨rfl, ?_, fun t => ?_, fun h => ?_⟩
  · cases vf <;> rfl
  · simp [time_shift_warp]
  · apply time_shift_warp_moves_midpoint
    have : (2 : ℕ) ≤ time_shift_factor ts := by
      simp only [time_shift_factor]
      omega
    exact_mod_cast Nat.cast_le.mpr this

/-- C7: the integrator core surfaces a vector-field failure to its caller
rather than swallowing it, and the only fallback sits at the plugin
boundary: when an exception arises during generation, generate returns
the placeholder pair of zero tensors of shapes
(batch_size, height, width, 3) and, under the key samples,
(batch_size, 4, height/8, width/8). -/
theorem c7_error_placeholder (inp : GenInputs) (e : ℕ) (err : EvalError)
    (st : PipeState) :
    ode_sample inp.num_inference_steps inp.solver inp.t_shift
        (resolve_seed inp.seed e) inp.batch_size inp.latent_channels
        inp.height inp.width (some err) = Except.error err ∧
    (generate inp e (some err) st).images =
      torch_zeros [inp.batch_size, inp.height, inp.width, 3] ∧
    (generate inp e (some err) st).latents =
      ⟨torch_zeros [inp.batch_size, 4, inp.height / 8, inp.width / 8]⟩ :=
  ⟨rfl, rfl, rfl⟩

/-- C8 fails on the code: at the concrete default inputs, a successful
run wraps the pixel-space image tensor of shape (1, 3, 1024, 1024)
under the key samples (process_latents receives output.images at
line 152), which differs from the latent shape (1, channels, 128, 128)
the claim states; the except branch of the same method builds the very
record the claim describes, with shape (1, 4, 128, 128), exposing the
internal contradiction. -/
theorem c8_latent_record_code_bug :
    (generate sample_inputs 0 none pipe0).latents.samples.shape =
      [1, 3, 1024, 1024] ∧
    (generate sample_inputs 0 none pipe0).latents.samples.shape ≠
      [1, sample_inputs.latent_channels, 1024 / 8, 1024 / 8] ∧
    (generate sample_inputs 0 (some (EvalError.vfRaised 0)) pipe0).latents.samples.shape =
      [1, 4, 1024 / 8, 1024 / 8] := by
  decide

/-- C9 fails as stated: with the sentinel seed -1 (an identical seed input
on both runs), two invocations that draw different OS entropy return
different output latents. -/
theorem c9_determinism_counterexample :
    (generate sentinel_inputs 0 none pipe0).latents ≠
      (generate sentinel_inputs 1 none pipe0).latents := by
  decide

/-- C9 amended: for every seed other than the randomize sentinel -1, two
invocations of generate with the same inputs produce identical output
latents and images, whatever entropy the OS supplies and whatever
pipeline state each run starts from. -/
theorem c9_determinism_amended (inp : GenInputs) (e1 e2 : ℕ)
    (st1 st2 : PipeState) (vf : Option EvalError) (h : inp.seed ≠ -1) :
    (generate inp e1 vf st1).latents = (generate inp e2 vf st2).latents ∧
    (generate inp e1 vf st1).images = (generate inp e2 vf st2).images := by
  have hs : resolve_seed inp.seed e1 = resolve_seed inp.seed e2 := by
    simp [resolve_seed, h]
  cases vf <;>
    simp [generate, class_pipeline_call, hs, process_latents, process_output]

/-- C9 amended, evaluated: the concrete inputs with seed 5 satisfy the
hypothesis and give equal latents and images across entropies 0 and 1. -/
theorem c9_determinism_amended_witness :
    sample_inputs.seed ≠ -1 ∧
    ((generate sample_inputs 0 none pipe0).latents =
        (generate sample_inputs 1 none pipe0).latents ∧
      (generate sample_inputs 0 none pipe0).images =
        (generate sample_inputs 1 none pipe0).images) :=
  ⟨by decide, c9_determinism_amended sample_inputs 0 1 pipe0 pipe0 none (by decide)⟩

/-- C10: when the pipeline call raises after the call method was replaced,
the except branch returns without restoring it, so the pipeline object
keeps the custom_call closure in its call attribute, and every
subsequent generation on the same node instance still leaves it there
(a later success path merely re-saves and restores the stale value). -/
theorem c10_stale_call_attr (inp : GenInputs) (e : ℕ) (err : EvalError)
    (st : PipeState) :
    (generate inp e (some err) st).pipe.call_attr = CallMethod.custom ∧
    (∀ (inp2 : GenInputs) (e2 : ℕ) (vf2 : Option EvalError),
      (generate inp2 e2 vf2 (generate inp e (some err) st).pipe).pipe.call_attr =
        CallMethod.custom) := by
  refine ⟨rfl, fun inp2 e2 vf2 => ?_⟩
  cases vf2 <;> rfl

end Lumina
